import Mathlib

/-!
Verification of the reconnaissance toolkit's scan-orchestration pipeline and
protocol probes, shallowly embedded from the Python sources under `modules/`.

Every external effect (the nmap engine, socket reads, subprocess runs,
optional client libraries) is modelled as an explicit outcome parameter: each
place where the Python code performs an effectful call that may raise takes
the outcome of that call as input, and the embedded function reproduces the
Python control flow — including its `try/except` handlers — on that outcome.
Machine-level details that the claims do not touch (byte decoding, logging)
are elided; all control flow and data flow visible to the claims is kept.
-/

namespace Recon

/- ### Python string primitives shared by several modules -/

/-- Text before and after the first occurrence of `sep`, if `sep` occurs. -/
def splitFirst (sep : Char) : List Char → Option (List Char × List Char)
  | [] => none
  | c :: cs =>
    if c = sep then some ([], cs)
    else (splitFirst sep cs).map (fun p => (c :: p.1, p.2))

/-- Python `str.split(sep, maxsplit)` on a one-character separator: at most
`maxsplit` splits are performed and the remainder is kept whole.  Python's
unbounded `str.split(sep)` is recovered by passing the string's length as
`maxsplit`, since each split consumes at least the separator character. -/
def pySplit (sep : Char) : Nat → List Char → List (List Char)
  | 0, s => [s]
  | n + 1, s =>
    match splitFirst sep s with
    | none => [s]
    | some (pre, post) => pre :: pySplit sep n post

/-- Python truthiness of a string: nonempty. -/
def pyTruthy (s : String) : Bool := !s.isEmpty

/-- Python `needle in hay` on strings: substring containment. -/
def containsSub (needle : List Char) : List Char → Bool
  | [] => needle.isEmpty
  | c :: cs => List.isPrefixOf needle (c :: cs) || containsSub needle cs

/- ### `modules/utils.py`: `run_command` (lines 133-173) -/

/-- Outcome of the `subprocess.run` call inside `run_command`: it either
completes with a return code and captured output, or raises
`subprocess.TimeoutExpired`, `FileNotFoundError`, or some other exception
(carrying its message `str(e)`). -/
inductive RunOutcome where
  | completed (returncode : Int) (stdout stderr : String)
  | timedOut
  | fileNotFound
  | raised (msg : String)
deriving DecidableEq

/-- Embeds `utils.run_command`: executes a command, converting every exception of
the underlying `subprocess.run` into a `(-1, "", message)` triple.  The
function is total over all outcomes: no exception propagates. -/
def run_command (command : List String) (timeout : Nat) (o : RunOutcome) :
    Int × String × String :=
  match o with
  | .completed rc out err => (rc, out, err)
  | .timedOut =>
      (-1, "", "Command timed out after " ++ toString timeout ++ " seconds")
  | .fileNotFound => (-1, "", "Command not found: " ++ command.headD "")
  | .raised msg => (-1, "", msg)

/- ### `modules/utils.py`: `sanitize_filename` (lines 269-284) -/

/-- The characters of the Python string `invalid_chars = '<>:"/\\|?*'`. -/
def invalid_chars : List Char := ['<', '>', ':', '"', '/', '\\', '|', '?', '*']

/-- Python `filename.replace(char, '_')` for a one-character pattern. -/
def replaceChar (c : Char) (s : List Char) : List Char :=
  s.map fun x => if x = c then '_' else x

/-- Embeds `utils.sanitize_filename`: successively replaces each invalid character
by an underscore. -/
def sanitize_filename (s : List Char) : List Char :=
  invalid_chars.foldl (fun acc c => replaceChar c acc) s

/- ### Socket banner grabs (`ssh_enum._get_banner`, `ftp_enum._get_banner`) -/

/-- Outcome of the socket connect/recv sequence of a banner grab: the
(decoded, stripped) banner text, a `socket.timeout`, or another exception. -/
inductive BannerOutcome where
  | received (banner : String)
  | timedOut
  | raised (msg : String)
deriving DecidableEq

/-- Embeds `_get_banner` of both `ssh_enum.py` and `ftp_enum.py` (identical code):
returns the banner on success and `None` on any exception, which is caught
and logged inside the helper. -/
def bannerGrab : BannerOutcome → Option String
  | .received b => some b
  | .timedOut => none
  | .raised _ => none

/- ### `modules/ssh_enum.py` -/

/-- Embeds `SSHEnumerator._parse_version` (lines 79-101): on a banner starting with
`SSH-`, split on `-` with maxsplit 2 and return the third part; otherwise
return the banner itself.  The body raises no exception, so the
`except` branch returning `None` is unreachable. -/
def ssh_parse_version (banner : String) : Option String :=
  if List.isPrefixOf "SSH-".data banner.data then
    match pySplit '-' 2 banner.data with
    | _ :: _ :: v :: _ => some (String.mk v)
    | _ => some banner
  else some banner

/-- The result dictionary built by `SSHEnumerator.enumerate`. -/
structure SSHResult where
  port : Nat
  service : String
  banner : Option String
  version : Option String
  error : Option String
deriving DecidableEq

/-- Embeds `SSHEnumerator.enumerate` (lines 29-51): sets every field up front, then
fills `banner`/`version` only when the banner grab returned a truthy
(nonempty) string.  The `error` field starts as `None` and is never
assigned afterwards. -/
def ssh_enumerate (port : Nat) (o : BannerOutcome) : SSHResult :=
  let results : SSHResult :=
    { port := port, service := "ssh", banner := none, version := none,
      error := none }
  match bannerGrab o with
  | some b =>
      if pyTruthy b then
        { results with banner := some b, version := ssh_parse_version b }
      else results
  | none => results

/- ### `modules/ftp_enum.py` -/

/-- Outcome of the `ftplib` connect-and-login sequence inside
`_check_anonymous_login`: the server's response string to `login`, or an
exception at any step. -/
inductive LoginOutcome where
  | response (resp : String)
  | raised (msg : String)
deriving DecidableEq

/-- Embeds `FTPEnumerator._check_anonymous_login` (lines 83-105): `True` iff the
login response contains `"230"`; every exception is caught and yields
`False`. -/
def ftp_check_anonymous_login : LoginOutcome → Bool
  | .response resp => containsSub "230".data resp.data
  | .raised _ => false

/-- The result dictionary built by `FTPEnumerator.enumerate`. -/
structure FTPResult where
  port : Nat
  service : String
  banner : Option String
  anonymous_login : Bool
  error : Option String
deriving DecidableEq

/-- Embeds `FTPEnumerator.enumerate` (lines 29-55): banner grab first (kept only if
truthy), then the anonymous-login check; its outcome overwrites the
`anonymous_login` field.  The `error` field starts as `None` and is
never assigned afterwards. -/
def ftp_enumerate (port : Nat) (b : BannerOutcome) (l : LoginOutcome) :
    FTPResult :=
  let results : FTPResult :=
    { port := port, service := "ftp", banner := none,
      anonymous_login := false, error := none }
  let results :=
    match bannerGrab b with
    | some s => if pyTruthy s then { results with banner := some s } else results
    | none => results
  { results with anonymous_login := ftp_check_anonymous_login l }

/- ### `modules/web_enum.py`: external tool runs (lines 90-165) -/

/-- The `(returncode, stdout, stderr)` triple produced by `run_command` for
an external tool invocation. -/
structure ToolRun where
  returncode : Int
  stdout : String
  stderr : String
deriving DecidableEq

/-- Embeds `WebEnumerator.run_feroxbuster` (lines 90-127): skip when the tool is not
installed; otherwise success exactly when the exit code is 0, in which case
stdout is returned. -/
def run_feroxbuster (installed : Bool) (r : ToolRun) : Option String :=
  if !installed then none
  else if r.returncode = 0 then some r.stdout else none

/-- Embeds `WebEnumerator.run_sublist3r` (lines 129-165): skip when the tool is not
installed; otherwise `if returncode == 0 or stdout:` — a run with non-empty
stdout counts as success even on a non-zero exit code. -/
def run_sublist3r (installed : Bool) (r : ToolRun) : Option String :=
  if !installed then none
  else if r.returncode = 0 ∨ pyTruthy r.stdout then some r.stdout else none

/- ### `modules/db_enum.py`: MySQL enumeration (lines 110-224) -/

/-- Outcome of the `mysql.connector.connect` attempt with empty credentials
(reached only when the library imports): a successful connection, a
`mysql.connector.Error`, or some other exception caught by the outer
handler. -/
inductive ConnectOutcome where
  | connected
  | connectorError (msg : String)
  | raised (msg : String)
deriving DecidableEq

/-- Embeds `DatabaseEnumerator._check_mysql_auth` (lines 193-224): `ImportError` on
the optional client library returns `None` despite the declared `bool`
return type; a clean connection returns `False`, a connector error `True`,
any other exception `True` via the outer handler. -/
def check_mysql_auth (libInstalled : Bool) (c : ConnectOutcome) : Option Bool :=
  if !libInstalled then none
  else
    match c with
    | .connected => some false
    | .connectorError _ => some true
    | .raised _ => some true

/-- Embeds `DatabaseEnumerator._parse_mysql_version` (lines 172-191): the part of
the banner before the first `-`.  `banner.split('-')` is never empty, so the
`return banner` fallback after the `if parts:` guard is unreachable; the
body raises no exception. -/
def parse_mysql_version (banner : String) : String :=
  match pySplit '-' banner.length banner.data with
  | [] => banner
  | p :: _ => String.mk p

/-- The result dictionary built by `DatabaseEnumerator.enumerate`. -/
structure DBResult where
  port : Nat
  service : String
  db_type : String
  version : Option String
  banner : Option String
  accessible : Bool
  authentication_required : Option Bool
  error : Option String
deriving DecidableEq

/-- Embeds `DatabaseEnumerator._enumerate_mysql` (lines 110-132): records the banner
and parsed version when the banner grab returned a truthy string, then
unconditionally stores the auth-check outcome in `authentication_required`.
`bannerRes` is the value returned by `_get_mysql_banner`, which catches its
own exceptions and returns `None` on failure. -/
def enumerate_mysql (bannerRes : Option String) (libInstalled : Bool)
    (c : ConnectOutcome) (results : DBResult) : DBResult :=
  let results :=
    match bannerRes with
    | some b =>
        if pyTruthy b then
          { results with banner := some b,
                         version := some (parse_mysql_version b) }
        else results
    | none => results
  { results with authentication_required := check_mysql_auth libInstalled c }

/- ### `modules/port_scanner.py` -/

/-- Auxiliary script output attached to a port by the deep scan
(`port_info['script']`, a dict of script name to output). -/
abbrev ScriptData := List (String × String)

/-- One entry of nmap's per-port result dictionary, as read by
`_parse_scan_results` via `port_info.get(...)`. -/
structure PortInfo where
  state : String
  name : String
  product : String
  version : String
  extrainfo : String
  script : Option ScriptData
deriving DecidableEq

/-- The nmap host data consumed by `_parse_scan_results`: for each protocol
(`host.all_protocols()`), the per-port dictionary `host[proto]`.  Python
dictionaries have unique keys, so the protocol names and the port keys of
each protocol are pairwise distinct; theorems take those facts as
hypotheses. -/
abbrev HostData := List (String × List (Nat × PortInfo))

/-- One element of the `ports` list built by `_parse_scan_results`. -/
structure PortData where
  port : Nat
  protocol : String
  state : String
  service : String
  product : String
  version : String
  extrainfo : String
  scripts : Option ScriptData
deriving DecidableEq

/-- The result dictionary of the scanner: `target` is absent (`none`) in the
error dictionaries built by the `except` branches, which carry only `error`
and `ports`; `error` is absent (`none`) in parse results. -/
structure ScanResults where
  target : Option String
  ports : List PortData
  error : Option String
deriving DecidableEq

/-- The `port_data` dictionary built for one port inside
`_parse_scan_results` (lines 136-164), including the version-string
rebuild from product/version/extrainfo and the `scripts` key that is added
only on a detailed scan when script output is present. -/
def buildPortData (detailed : Bool) (proto : String) (port : Nat)
    (info : PortInfo) : PortData :=
  let version_parts :=
    (if pyTruthy info.product then [info.product] else []) ++
    (if pyTruthy info.version then [info.version] else []) ++
    (if pyTruthy info.extrainfo then ["(" ++ info.extrainfo ++ ")"] else [])
  { port := port
    protocol := proto
    state := info.state
    service := info.name
    product := info.product
    version := if version_parts.isEmpty then ""
               else String.intercalate " " version_parts
    extrainfo := info.extrainfo
    scripts := if detailed then info.script else none }

/-- The comparison `key=lambda x: x['port']` of the final
`results['ports'].sort(...)`. -/
def portLE (a b : PortData) : Prop := a.port ≤ b.port

instance : DecidableRel portLE := fun a b => Nat.decLe a.port b.port

instance : IsTotal PortData portLE := ⟨fun a b => Nat.le_total a.port b.port⟩

instance : IsTrans PortData portLE := ⟨fun _ _ _ => Nat.le_trans⟩

/-- Embeds `PortScanner._parse_scan_results` (lines 108-172): `none` host data
models `self.target not in self.nm.all_hosts()` (no results); otherwise the
nested loops over protocols and ports build the port list, which is then
sorted ascending by port number.  The sort is modelled by a stable
insertion sort, matching Python's stable `list.sort`. -/
def parse_scan_results (target : String) (detailed : Bool)
    (hostData : Option HostData) : ScanResults :=
  match hostData with
  | none => { target := some target, ports := [], error := none }
  | some protos =>
      let ports := protos.flatMap fun pp =>
        pp.2.map fun q => buildPortData detailed pp.1 q.1 q.2
      { target := some target, ports := List.insertionSort portLE ports,
        error := none }

/-- The scan engine behind `self.nm.scan(...)` followed by result parsing:
for each phase, either the host data that `_parse_scan_results` will read,
or the message of the exception the engine raised.  `Option HostData` is
`none` when the target does not appear in `all_hosts()`. -/
structure ScanEngine where
  quickData : Except String (Option HostData)
  versionData : List Nat → Except String (Option HostData)

/-- Embeds `PortScanner.quick_scan` (lines 30-64): on an engine exception the
`except` branch returns `{'error': str(e), 'ports': []}`; otherwise the
parsed results. -/
def quick_scan (engine : ScanEngine) (target : String) : ScanResults :=
  match engine.quickData with
  | .error e => { target := none, ports := [], error := some e }
  | .ok hd => parse_scan_results target false hd

/-- Embeds `PortScanner.version_scan` (lines 66-106): an empty port list returns
`{'ports': []}` without scanning; an engine exception returns
`{'error': str(e), 'ports': []}`; otherwise the parsed detailed results. -/
def version_scan (engine : ScanEngine) (target : String) (ports : List Nat) :
    ScanResults :=
  if ports.isEmpty then { target := none, ports := [], error := none }
  else
    match engine.versionData ports with
    | .error e => { target := none, ports := [], error := some e }
    | .ok hd => parse_scan_results target true hd

/-- The open-port extraction of `scan_target` (lines 201-204): ports of the
Phase-1 entries whose state is `open`. -/
def openPorts (results : ScanResults) : List Nat :=
  (results.ports.filter fun p => p.state == "open").map (·.port)

/-- Embeds `port_scanner.scan_target` (lines 178-214): quick scan; on an error key
return it; with no open ports return the Phase-1 result; otherwise return
the Phase-2 `version_scan` result unchanged. -/
def scan_target (engine : ScanEngine) (target : String) : ScanResults :=
  let quick_results := quick_scan engine target
  if quick_results.error.isSome then quick_results
  else
    let open_ports := openPorts quick_results
    if open_ports.isEmpty then quick_results
    else version_scan engine target open_ports

/- ### Sample data used by witnesses and counterexamples -/

/-- A port-info entry in state `open`, as nmap reports an SSH port. -/
def openInfo : PortInfo :=
  { state := "open", name := "ssh", product := "OpenSSH", version := "8.2",
    extrainfo := "Ubuntu", script := none }

/-- A port-info entry in state `closed`. -/
def closedInfo : PortInfo :=
  { state := "closed", name := "", product := "", version := "",
    extrainfo := "", script := none }

/-- An engine whose quick scan finds port 22 open and whose version scan
raises. -/
def engPhase2Fail : ScanEngine :=
  { quickData := .ok (some [("tcp", [(22, openInfo)])])
    versionData := fun _ => .error "nmap crashed" }

/-- An engine whose quick scan finds only a closed port; its version oracle
always raises. -/
def engNoOpen : ScanEngine :=
  { quickData := .ok (some [("tcp", [(80, closedInfo)])])
    versionData := fun _ => .error "boom" }

/-- A second version oracle over the same quick data, used to show the
Phase-2 oracle is never consulted. -/
def engNoOpenAlt : ScanEngine :=
  { quickData := .ok (some [("tcp", [(80, closedInfo)])])
    versionData := fun _ => .ok none }

/- ### Helper lemmas for `sanitize_filename` -/

/-- One replacement step, applied to a single character. -/
def stepChar (y c : Char) : Char := if y = c then '_' else y

/-- The whole replacement chain, applied to a single character. -/
def sanitizeChar (x : Char) : Char := invalid_chars.foldl stepChar x

theorem foldl_replaceChar (cs : List Char) (l : List Char) :
    cs.foldl (fun acc c => replaceChar c acc) l =
      l.map (fun x => cs.foldl stepChar x) := by
  induction cs generalizing l with
  | nil => simp [List.map_id']
  | cons c cs ih =>
    simp only [List.foldl_cons]
    rw [ih, show replaceChar c l = l.map (fun x => stepChar x c) from rfl,
      List.map_map]
    rfl

theorem sanitize_eq_map (s : List Char) :
    sanitize_filename s = s.map sanitizeChar :=
  foldl_replaceChar invalid_chars s

theorem foldl_stepChar_underscore (cs : List Char) :
    cs.foldl stepChar '_' = '_' := by
  induction cs with
  | nil => rfl
  | cons c cs ih =>
    have h : stepChar '_' c = '_' := by unfold stepChar; split <;> rfl
    simpa [List.foldl_cons, h] using ih

theorem foldl_stepChar_cases (cs : List Char) (x : Char) :
    cs.foldl stepChar x = '_' ∨ (cs.foldl stepChar x = x ∧ x ∉ cs) := by
  induction cs with
  | nil => exact Or.inr ⟨rfl, List.not_mem_nil x⟩
  | cons c cs ih =>
    by_cases hx : x = c
    · subst hx
      left
      have h : stepChar x x = '_' := by unfold stepChar; simp
      simpa [List.foldl_cons, h] using foldl_stepChar_underscore cs
    · have h : stepChar x c = x := by unfold stepChar; simp [hx]
      simp only [List.foldl_cons, h]
      rcases ih with h1 | ⟨h1, h2⟩
      · exact Or.inl h1
      · exact Or.inr ⟨h1, by simp [List.mem_cons, hx, h2]⟩

theorem sanitizeChar_cases (x : Char) :
    sanitizeChar x = '_' ∨ (sanitizeChar x = x ∧ x ∉ invalid_chars) :=
  foldl_stepChar_cases invalid_chars x

theorem sanitizeChar_idem (x : Char) :
    sanitizeChar (sanitizeChar x) = sanitizeChar x := by
  rcases sanitizeChar_cases x with h | ⟨h, _⟩
  · rw [h]; exact foldl_stepChar_underscore invalid_chars
  · rw [h, h]

theorem map_sanitizeChar_idem (s : List Char) :
    (s.map sanitizeChar).map sanitizeChar = s.map sanitizeChar := by
  induction s with
  | nil => rfl
  | cons a s ih => simp only [List.map_cons, ih, sanitizeChar_idem]

/- ### Helper lemmas for `_parse_scan_results` -/

/-- The (port, protocol) key of one built entry. -/
def portPair (pd : PortData) : Nat × String := (pd.port, pd.protocol)

theorem build_block_pairs (detailed : Bool)
    (pp : String × List (Nat × PortInfo)) :
    (pp.2.map fun q => buildPortData detailed pp.1 q.1 q.2).map portPair =
      pp.2.map fun q => (q.1, pp.1) := by
  rw [List.map_map]; rfl

theorem nodup_block_pairs (pp : String × List (Nat × PortInfo))
    (h : (pp.2.map Prod.fst).Nodup) :
    (pp.2.map fun q => ((q.1 : Nat), pp.1)).Nodup := by
  have he : (pp.2.map fun q => ((q.1 : Nat), pp.1)) =
      (pp.2.map Prod.fst).map (fun n => (n, pp.1)) := by
    rw [List.map_map]; rfl
  rw [he]
  exact h.map (fun a b hab => (Prod.ext_iff.mp hab).1)

theorem nodup_all_pairs (detailed : Bool) (protos : HostData)
    (hp : (protos.map Prod.fst).Nodup)
    (hq : ∀ pp ∈ protos, (pp.2.map Prod.fst).Nodup) :
    ((protos.flatMap fun pp =>
        pp.2.map fun q => buildPortData detailed pp.1 q.1 q.2).map
      portPair).Nodup := by
  rw [List.map_flatMap, List.nodup_flatMap]
  constructor
  · intro pp hpp
    rw [build_block_pairs]
    exact nodup_block_pairs pp (hq pp hpp)
  · have hp' : protos.Pairwise (fun a b => a.1 ≠ b.1) := List.pairwise_map.mp hp
    refine hp'.imp ?_
    intro a b hne
    simp only [Function.onFun]
    intro x hxa hxb
    rw [build_block_pairs] at hxa hxb
    rcases List.mem_map.mp hxa with ⟨qa, _, rfl⟩
    rcases List.mem_map.mp hxb with ⟨qb, _, hb⟩
    exact hne ((Prod.ext_iff.mp hb).2.symm)

/- ### Claim theorems -/

/-- Claim C10: for every input string, `sanitize_filename` returns a string
containing none of the characters `< > : " / \ | ? *`, and the function is
idempotent: applying it twice yields the same result as applying it once. -/
theorem sanitize_filename_no_invalid_and_idempotent (s : List Char) :
    (∀ c ∈ invalid_chars, c ∉ sanitize_filename s) ∧
    sanitize_filename (sanitize_filename s) = sanitize_filename s := by
  constructor
  · intro c hc hmem
    rw [sanitize_eq_map] at hmem
    rcases List.mem_map.mp hmem with ⟨x, _, hx⟩
    rcases sanitizeChar_cases x with h | ⟨h, hnot⟩
    · rw [h] at hx
      subst hx
      exact absurd hc (by decide)
    · rw [h] at hx
      subst hx
      exact hnot hc
  · simp only [sanitize_eq_map]
    exact map_sanitizeChar_idem s

/-- Claim C10 witness: evaluation at the concrete filename `a<b`. -/
theorem sanitize_filename_no_invalid_and_idempotent_witness :
    '<' ∈ invalid_chars ∧ '<' ∉ sanitize_filename "a<b".data ∧
    sanitize_filename (sanitize_filename "a<b".data) =
      sanitize_filename "a<b".data :=
  ⟨by decide,
   (sanitize_filename_no_invalid_and_idempotent "a<b".data).1 '<' (by decide),
   (sanitize_filename_no_invalid_and_idempotent "a<b".data).2⟩

/-- Claim C3: for every scan-engine result whose protocol names are distinct
and whose per-protocol port keys are distinct (Python dictionary keys), the
`ports` list returned by `_parse_scan_results` is sorted ascending by port
number and contains no duplicate (port, protocol) pairs, regardless of the
engine's native output order; with no host data the list is empty. -/
theorem parse_scan_results_sorted_nodup (target : String) (detailed : Bool)
    (protos : HostData)
    (hp : (protos.map Prod.fst).Nodup)
    (hq : ∀ pp ∈ protos, (pp.2.map Prod.fst).Nodup) :
    List.Sorted portLE (parse_scan_results target detailed (some protos)).ports ∧
    ((parse_scan_results target detailed (some protos)).ports.map
        portPair).Nodup ∧
    (parse_scan_results target detailed none).ports = [] := by
  refine ⟨?_, ?_, rfl⟩
  · show List.Sorted portLE (List.insertionSort portLE _)
    exact List.sorted_insertionSort portLE _
  · show ((List.insertionSort portLE (protos.flatMap fun pp =>
        pp.2.map fun q => buildPortData detailed pp.1 q.1 q.2)).map
      portPair).Nodup
    have hperm := (List.perm_insertionSort portLE (protos.flatMap fun pp =>
      pp.2.map fun q => buildPortData detailed pp.1 q.1 q.2)).map portPair
    exact hperm.nodup_iff.mpr (nodup_all_pairs detailed protos hp hq)

/-- Claim C3 witness: a two-protocol engine result given out of order. -/
theorem parse_scan_results_sorted_nodup_witness :
    (([("tcp", [(80, Recon.closedInfo), (22, Recon.openInfo)]),
       ("udp", [(53, Recon.closedInfo)])] : HostData).map Prod.fst).Nodup ∧
    (∀ pp ∈ ([("tcp", [(80, Recon.closedInfo), (22, Recon.openInfo)]),
       ("udp", [(53, Recon.closedInfo)])] : HostData),
        (pp.2.map Prod.fst).Nodup) ∧
    List.Sorted portLE (parse_scan_results "t" false
      (some [("tcp", [(80, Recon.closedInfo), (22, Recon.openInfo)]),
             ("udp", [(53, Recon.closedInfo)])])).ports ∧
    ((parse_scan_results "t" false
      (some [("tcp", [(80, Recon.closedInfo), (22, Recon.openInfo)]),
             ("udp", [(53, Recon.closedInfo)])])).ports.map portPair).Nodup :=
  ⟨by decide, by decide,
   (parse_scan_results_sorted_nodup "t" false _ (by decide) (by decide)).1,
   (parse_scan_results_sorted_nodup "t" false _ (by decide) (by decide)).2.1⟩

theorem scan_target_eq_quick_of_no_open (engine : ScanEngine) (target : String)
    (h : openPorts (quick_scan engine target) = []) :
    scan_target engine target = quick_scan engine target := by
  by_cases he : (quick_scan engine target).error.isSome <;>
    simp [scan_target, he, h]

/-- Claim C2: for every target and engine, if the Phase-1 quick scan yields
zero ports in state `open`, then the Phase-2 version oracle is never
consulted (the result does not depend on it) and `scan_target` returns
exactly the Phase-1 result. -/
theorem scan_target_zero_open_ports (qd : Except String (Option HostData))
    (v v' : List Nat → Except String (Option HostData)) (target : String)
    (h : openPorts (quick_scan ⟨qd, v⟩ target) = []) :
    scan_target ⟨qd, v⟩ target = quick_scan ⟨qd, v⟩ target ∧
    scan_target ⟨qd, v'⟩ target = quick_scan ⟨qd, v⟩ target := by
  have h' : openPorts (quick_scan ⟨qd, v'⟩ target) = [] := h
  have hqq : quick_scan ⟨qd, v'⟩ target = quick_scan ⟨qd, v⟩ target := rfl
  exact ⟨scan_target_eq_quick_of_no_open ⟨qd, v⟩ target h,
    (scan_target_eq_quick_of_no_open ⟨qd, v'⟩ target h').trans hqq⟩

/-- Claim C2 witness: a quick scan finding only a closed port, checked
against two different Phase-2 oracles (one of which raises). -/
theorem scan_target_zero_open_ports_witness :
    openPorts (quick_scan engNoOpen "t") = [] ∧
    scan_target engNoOpen "t" = quick_scan engNoOpen "t" ∧
    scan_target engNoOpenAlt "t" = quick_scan engNoOpen "t" :=
  ⟨by decide,
   (scan_target_zero_open_ports engNoOpen.quickData engNoOpen.versionData
     engNoOpenAlt.versionData "t" (by decide)).1,
   (scan_target_zero_open_ports engNoOpen.quickData engNoOpen.versionData
     engNoOpenAlt.versionData "t" (by decide)).2⟩

/-- Claim C1 counterexample: Phase 1 succeeds and finds port 22 open, the
Phase-2 engine raises — yet `scan_target` returns an empty port list, not
the Phase-1 list: the Phase-1 data is discarded, refuting the claim. -/
theorem scan_target_phase2_failure_cex :
    (quick_scan engPhase2Fail "10.0.0.5").error = none ∧
    openPorts (quick_scan engPhase2Fail "10.0.0.5") = [22] ∧
    (scan_target engPhase2Fail "10.0.0.5").ports = [] ∧
    (scan_target engPhase2Fail "10.0.0.5").ports ≠
      (quick_scan engPhase2Fail "10.0.0.5").ports := by
  refine ⟨rfl, by decide, rfl, by decide⟩

/-- Claim C1 amended: if the Phase-1 quick scan succeeds with at least one
open port and the Phase-2 version scan raises, `scan_target` returns the
Phase-2 error dictionary — the error message together with an EMPTY port
list; the Phase-1 port list is discarded rather than preserved. -/
theorem scan_target_phase2_failure (engine : ScanEngine) (target e : String)
    (herr : (quick_scan engine target).error = none)
    (hopen : openPorts (quick_scan engine target) ≠ [])
    (hv : engine.versionData (openPorts (quick_scan engine target)) =
      .error e) :
    scan_target engine target =
      { target := none, ports := [], error := some e } := by
  have h1 : (quick_scan engine target).error.isSome = false := by
    rw [herr]; rfl
  have h2 : (openPorts (quick_scan engine target)).isEmpty = false := by
    cases hol : openPorts (quick_scan engine target) with
    | nil => exact absurd hol hopen
    | cons a l => rfl
  simp [scan_target, version_scan, h1, h2, hv]

/-- Claim C1 amended witness: evaluation at the concrete engine whose
version scan raises `nmap crashed`. -/
theorem scan_target_phase2_failure_witness :
    (quick_scan engPhase2Fail "10.0.0.5").error = none ∧
    openPorts (quick_scan engPhase2Fail "10.0.0.5") ≠ [] ∧
    engPhase2Fail.versionData (openPorts (quick_scan engPhase2Fail "10.0.0.5"))
      = .error "nmap crashed" ∧
    scan_target engPhase2Fail "10.0.0.5" =
      { target := none, ports := [], error := some "nmap crashed" } :=
  ⟨rfl, by decide, rfl,
   scan_target_phase2_failure engPhase2Fail "10.0.0.5" "nmap crashed" rfl
     (by decide) rfl⟩

/-- Claim C4 counterexample: the SSH banner grab raises (connection
refused), a failure — yet the returned result's `error` field is `None`:
the failure is not captured into the error field, refuting the claim. -/
theorem probe_error_field_cex :
    (ssh_enumerate 22 (.raised "connection refused")).banner = none ∧
    (ssh_enumerate 22 (.raised "connection refused")).error = none ∧
    (ftp_enumerate 21 (.raised "connection refused")
      (.raised "connection refused")).error = none := by
  refine ⟨rfl, rfl, rfl⟩

/-- Claim C4 amended: the SSH and FTP `enumerate` operations never let an
exception escape their boundary — every socket failure is caught inside the
helpers, and `enumerate` is total over all outcomes — but a failure is only
logged: the `error` field of the returned result is always `None`, never
populated with the failure. -/
theorem probe_enumerate_total_error_none (p q : Nat) (b b' : BannerOutcome)
    (l : LoginOutcome) :
    (ssh_enumerate p b).error = none ∧ (ftp_enumerate q b' l).error = none := by
  constructor
  · cases b with
    | received s =>
        by_cases hs : pyTruthy s <;> simp [ssh_enumerate, bannerGrab, hs]
    | timedOut => rfl
    | raised m => rfl
  · cases b' with
    | received s =>
        by_cases hs : pyTruthy s <;> simp [ftp_enumerate, bannerGrab, hs]
    | timedOut => rfl
    | raised m => rfl

/-- Claim C5: whenever the FTP banner grab succeeds with a (truthy) banner,
the returned result retains that banner, whatever the outcome of the
subsequent anonymous-login check — including when it raises. -/
theorem ftp_banner_retained (port : Nat) (s : String) (l : LoginOutcome)
    (hs : pyTruthy s = true) :
    (ftp_enumerate port (.received s) l).banner = some s := by
  simp [ftp_enumerate, bannerGrab, hs]

/-- Claim C5 witness: banner kept although the login check raised. -/
theorem ftp_banner_retained_witness :
    pyTruthy "220 ProFTPD Server ready." = true ∧
    (ftp_enumerate 21 (.received "220 ProFTPD Server ready.")
      (.raised "530 Login incorrect")).banner =
      some "220 ProFTPD Server ready." :=
  ⟨rfl, ftp_banner_retained 21 "220 ProFTPD Server ready."
    (.raised "530 Login incorrect") rfl⟩

/-- Claim C6: on the banner `SSH-2.0-OpenSSH_8.2p1 Ubuntu-4ubuntu0.5` the
parsed version field of the SSH probe's result equals
`OpenSSH_8.2p1 Ubuntu-4ubuntu0.5`. -/
theorem ssh_parse_version_scenario :
    (ssh_enumerate 22
        (.received "SSH-2.0-OpenSSH_8.2p1 Ubuntu-4ubuntu0.5")).version =
      some "OpenSSH_8.2p1 Ubuntu-4ubuntu0.5" ∧
    ssh_parse_version "SSH-2.0-OpenSSH_8.2p1 Ubuntu-4ubuntu0.5" =
      some "OpenSSH_8.2p1 Ubuntu-4ubuntu0.5" := by
  refine ⟨rfl, rfl⟩

/-- Claim C7: `run_command` is total over every outcome of the underlying
subprocess call — no exception propagates and no unbounded hang is modelled
(the subprocess call itself carries the timeout): a timeout yields
`(-1, "", descriptive message)`, a missing executable yields
`(-1, "", "Command not found: <name>")`, and any other exception yields
`(-1, "", error text)`. -/
theorem run_command_exception_spec (command : List String) (timeout : Nat)
    (rc : Int) (out err msg : String) :
    run_command command timeout (.completed rc out err) = (rc, out, err) ∧
    run_command command timeout .timedOut =
      (-1, "", "Command timed out after " ++ toString timeout ++ " seconds") ∧
    run_command command timeout .fileNotFound =
      (-1, "", "Command not found: " ++ command.headD "") ∧
    run_command command timeout (.raised msg) = (-1, "", msg) :=
  ⟨rfl, rfl, rfl, rfl⟩

/-- Claim C8: exit code 0 is success for both tools; for sublist3r a run
with non-empty stdout is success (stdout returned) even on a non-zero exit
code, while for feroxbuster a non-zero exit code is failure. -/
theorem tool_exit_code_policy (r s : ToolRun)
    (h0 : r.returncode ≠ 0) (hs : pyTruthy r.stdout = true)
    (hz : s.returncode = 0) :
    run_sublist3r true r = some r.stdout ∧
    run_feroxbuster true r = none ∧
    run_sublist3r true s = some s.stdout ∧
    run_feroxbuster true s = some s.stdout := by
  refine ⟨?_, ?_, ?_, ?_⟩ <;>
    simp [run_sublist3r, run_feroxbuster, h0, hs, hz]

/-- Claim C8 witness: a sublist3r run with exit code 2 but non-empty
stdout, and a clean exit-code-0 run. -/
theorem tool_exit_code_policy_witness :
    (⟨2, "sub.example.com", ""⟩ : ToolRun).returncode ≠ 0 ∧
    pyTruthy (⟨2, "sub.example.com", ""⟩ : ToolRun).stdout = true ∧
    (⟨0, "ok", ""⟩ : ToolRun).returncode = 0 ∧
    run_sublist3r true ⟨2, "sub.example.com", ""⟩ = some "sub.example.com" ∧
    run_feroxbuster true ⟨2, "sub.example.com", ""⟩ = none ∧
    run_sublist3r true ⟨0, "ok", ""⟩ = some "ok" ∧
    run_feroxbuster true ⟨0, "ok", ""⟩ = some "ok" :=
  ⟨by decide, rfl, rfl,
   (tool_exit_code_policy ⟨2, "sub.example.com", ""⟩ ⟨0, "ok", ""⟩
     (by decide) rfl rfl).1,
   (tool_exit_code_policy ⟨2, "sub.example.com", ""⟩ ⟨0, "ok", ""⟩
     (by decide) rfl rfl).2.1,
   (tool_exit_code_policy ⟨2, "sub.example.com", ""⟩ ⟨0, "ok", ""⟩
     (by decide) rfl rfl).2.2.1,
   (tool_exit_code_policy ⟨2, "sub.example.com", ""⟩ ⟨0, "ok", ""⟩
     (by decide) rfl rfl).2.2.2⟩

/-- Claim C9: with the optional MySQL client library absent, the auth check
returns `None` despite its declared bool return type, so the
`authentication_required` field of the MySQL enumeration result is `None`
for every connection outcome and prior result state — indistinguishable at
the field level from an inconclusive check; the probe is total (no crash). -/
theorem mysql_auth_none_without_library (b : Option String)
    (c : ConnectOutcome) (r : DBResult) :
    check_mysql_auth false c = none ∧
    (enumerate_mysql b false c r).authentication_required = none :=
  ⟨rfl, rfl⟩

end Recon
